import Mathlib

/-!
Verification of the lightdash repository excerpt: the backend
`SemanticLayerService`, the frontend `useSqlQueryRun` hook, and the
frontend `CreateGroupModal` component.  Each TypeScript function is
shallowly embedded as a pure Lean function; effectful calls (semantic
layer clients, the scheduler, toasts) are recorded in an explicit effect
trace, and thrown exceptions are modelled with `Except`.
-/

namespace Lightdash

/-- JavaScript truthiness of an optional string, as appears in
`!!this.lightdashConfig.dbtCloud.bearerToken`: `undefined` and the empty
string are falsy, every other string is truthy. -/
def truthy : Option String → Bool
  | none => false
  | some s => !(s == "")

/-- The `dbtCloud` section of `LightdashConfig` (only the fields the
service reads). -/
structure DbtCloudConfig where
  bearerToken : Option String
  environmentId : Option String
deriving DecidableEq

/-- The `cube` section of `LightdashConfig` (only the fields the service
reads). -/
structure CubeConfig where
  token : Option String
  domain : Option String
deriving DecidableEq

/-- The parts of `LightdashConfig` read by `SemanticLayerService`. -/
structure LightdashConfig where
  dbtCloud : DbtCloudConfig
  cube : CubeConfig
  siteUrl : String
deriving DecidableEq

/-- The two pre-built semantic layer clients held by the service
(`this.dbtCloudClient` and `this.cubeClient`). -/
inductive SemanticLayerClient
  | dbtCloudClient
  | cubeClient
deriving DecidableEq

/-- Errors thrown by the service: `ForbiddenError` from the permission
check and `MissingConfigError` from client selection. -/
inductive ServiceError
  | forbidden
  | missingConfig (message : String)
deriving DecidableEq

/-- Opaque DTO from `@lightdash/common`; the service passes it through
untouched, so its internal shape is irrelevant. -/
abbrev SemanticLayerQuery := String

/-- Opaque DTO: the `selectedFields` argument of `getFields`. -/
abbrev SemanticLayerSelectedFields := List String

/-- Opaque DTO: one element of the list returned by `getViews`. -/
abbrev SemanticLayerView := String

/-- Opaque DTO: one element of the list returned by `getFields`. -/
abbrev SemanticLayerField := String

/-- The part of a project record read by `checkCanViewProject`. -/
structure Project where
  organizationUuid : String
deriving DecidableEq

/-- A CASL ability, restricted to the single check the service performs:
`can('view', subject('Project', { organizationUuid, projectUuid }))`. -/
structure Ability where
  canViewProject : String → String → Bool

/-- The parts of `SessionUser` the service reads. -/
structure SessionUser where
  userUuid : String
  ability : Ability

/-- The `SemanticLayerQueryPayload` handed to `streamQueryIntoFile` by
the scheduler. -/
structure SemanticLayerQueryPayload where
  userUuid : String
  projectUuid : String
  query : SemanticLayerQuery
  context : String
deriving DecidableEq

/-- External calls made by the service, recorded in order. -/
inductive Effect
  | clientGetViews (client : SemanticLayerClient)
  | clientGetFields (client : SemanticLayerClient) (view : String)
      (selectedFields : SemanticLayerSelectedFields)
  | clientGetSql (client : SemanticLayerClient) (query : SemanticLayerQuery)
  | clientStreamResults (client : SemanticLayerClient) (projectUuid : String)
      (query : SemanticLayerQuery)
  | schedulerSubmit (payload : SemanticLayerQueryPayload)
deriving DecidableEq

/-- The collaborators injected into `SemanticLayerService`: the config,
the project model, the responses of the two clients, the scheduler and
the download-file model.  Client and scheduler behaviour is opaque to
this codebase, so it is an arbitrary function of the arguments. -/
structure Env where
  lightdashConfig : LightdashConfig
  projectModel : String → Project
  clientViews : SemanticLayerClient → List SemanticLayerView
  clientFields : SemanticLayerClient → String → SemanticLayerSelectedFields →
      List SemanticLayerField
  clientSql : SemanticLayerClient → SemanticLayerQuery → String
  schedulerJobId : SemanticLayerQueryPayload → String
  streamFileUrl : SemanticLayerClient → String → SemanticLayerQuery → String

/-- Embeds `private async checkCanViewProject(user, projectUuid)`: load the
project, throw `ForbiddenError` when the ability denies viewing it,
otherwise return the project. -/
def checkCanViewProject (env : Env) (user : SessionUser) (projectUuid : String) :
    Except ServiceError Project :=
  let project := env.projectModel projectUuid
  if !(user.ability.canViewProject project.organizationUuid projectUuid) then
    Except.error ServiceError.forbidden
  else
    Except.ok project

/-- Embeds `async getSemanticLayerClient(projectUuid)`: dbt Cloud when both its
config values are truthy, else Cube when both its config values are
truthy, else throw `MissingConfigError`.  The `projectUuid` parameter is
accepted but never read (see the TODO comment in the source). -/
def getSemanticLayerClient (cfg : LightdashConfig) (projectUuid : String) :
    Except ServiceError SemanticLayerClient :=
  if truthy cfg.dbtCloud.bearerToken && truthy cfg.dbtCloud.environmentId then
    Except.ok SemanticLayerClient.dbtCloudClient
  else if truthy cfg.cube.token && truthy cfg.cube.domain then
    Except.ok SemanticLayerClient.cubeClient
  else
    Except.error (ServiceError.missingConfig "No semantic layer available")

/-- Embeds `async getViews(user, projectUuid)`: permission check, client
selection, then `client.getViews()` (the analytics `wrapEvent` only
reports events and is not part of the result). -/
def getViews (env : Env) (user : SessionUser) (projectUuid : String) :
    Except ServiceError (List SemanticLayerView) × List Effect :=
  match checkCanViewProject env user projectUuid with
  | Except.error e => (Except.error e, [])
  | Except.ok _ =>
    match getSemanticLayerClient env.lightdashConfig projectUuid with
    | Except.error e => (Except.error e, [])
    | Except.ok client =>
      (Except.ok (env.clientViews client), [Effect.clientGetViews client])

/-- Embeds `async getFields(user, projectUuid, view, selectedFields)`:
permission check, client selection, then
`client.getFields(view, selectedFields)`. -/
def getFields (env : Env) (user : SessionUser) (projectUuid : String)
    (view : String) (selectedFields : SemanticLayerSelectedFields) :
    Except ServiceError (List SemanticLayerField) × List Effect :=
  match checkCanViewProject env user projectUuid with
  | Except.error e => (Except.error e, [])
  | Except.ok _ =>
    match getSemanticLayerClient env.lightdashConfig projectUuid with
    | Except.error e => (Except.error e, [])
    | Except.ok client =>
      (Except.ok (env.clientFields client view selectedFields),
       [Effect.clientGetFields client view selectedFields])

/-- Embeds `async getStreamingResults(user, projectUuid, query)`: permission
check, client availability check, then submit a
`semanticLayerStreamingResults` job and return its id. -/
def getStreamingResults (env : Env) (user : SessionUser) (projectUuid : String)
    (query : SemanticLayerQuery) :
    Except ServiceError String × List Effect :=
  match checkCanViewProject env user projectUuid with
  | Except.error e => (Except.error e, [])
  | Except.ok _ =>
    match getSemanticLayerClient env.lightdashConfig projectUuid with
    | Except.error e => (Except.error e, [])
    | Except.ok _ =>
      let payload : SemanticLayerQueryPayload :=
        { userUuid := user.userUuid
          projectUuid := projectUuid
          query := query
          context := "semanticViewer" }
      (Except.ok (env.schedulerJobId payload), [Effect.schedulerSubmit payload])

/-- Embeds `async streamQueryIntoFile(payload)`: select the client and stream
the query results into a file, returning the file url.  The source
performs no permission check here: the payload carries only a
`userUuid`, not a `SessionUser`, and `checkCanViewProject` is never
called. -/
def streamQueryIntoFile (env : Env) (payload : SemanticLayerQueryPayload) :
    Except ServiceError String × List Effect :=
  match getSemanticLayerClient env.lightdashConfig payload.projectUuid with
  | Except.error e => (Except.error e, [])
  | Except.ok client =>
    (Except.ok (env.streamFileUrl client payload.projectUuid payload.query),
     [Effect.clientStreamResults client payload.projectUuid payload.query])

/-- Embeds `async getSql(user, projectUuid, query)`: permission check, client
selection, then `client.getSql(query)`. -/
def getSql (env : Env) (user : SessionUser) (projectUuid : String)
    (query : SemanticLayerQuery) :
    Except ServiceError String × List Effect :=
  match checkCanViewProject env user projectUuid with
  | Except.error e => (Except.error e, [])
  | Except.ok _ =>
    match getSemanticLayerClient env.lightdashConfig projectUuid with
    | Except.error e => (Except.error e, [])
    | Except.ok client =>
      (Except.ok (env.clientSql client query), [Effect.clientGetSql client query])

/-! ## Frontend: the `useSqlQueryRun` hook -/

/-- Embeds `SchedulerJobStatus` from `@lightdash/common` (the hook only
compares against `ERROR`). -/
inductive SchedulerJobStatus
  | scheduled
  | started
  | completed
  | error
deriving DecidableEq

/-- Opaque DTO: one result row fetched from the results stream. -/
abbrev ResultRow := String

/-- Opaque DTO: one column descriptor from the completed job details. -/
abbrev SqlColumn := String

/-- The `ResultsAndColumns` type returned by the mutation. -/
structure ResultsAndColumns where
  results : List ResultRow
  columns : List SqlColumn
deriving DecidableEq

/-- The `details` field of a completed scheduler job: either error
details (carrying an error message) or completion details (carrying a
file url and columns).  The field itself may also be `undefined`,
modelled with `Option` at the use site. -/
inductive JobDetails
  | errorDetails (message : String)
  | completedDetails (fileUrl : String) (columns : List SqlColumn)
deriving DecidableEq

/-- Embeds `isErrorDetails(job.details)` from `@lightdash/common`: true exactly
when the details value is present and error-shaped. -/
def isErrorDetails : Option JobDetails → Bool
  | some (JobDetails.errorDetails _) => true
  | _ => false

/-- The job record returned by `getSqlRunnerCompleteJob`. -/
structure SqlRunnerJob where
  status : SchedulerJobStatus
  details : Option JobDetails
deriving DecidableEq

/-- A toast notification shown by `showToastError`. -/
structure Toast where
  title : String
  subtitle : Option String
deriving DecidableEq

/-- Observable events of one `useSqlQueryRun` mutation run: each network
call to `scheduleSqlJob` and each toast shown. -/
inductive SqlEffect
  | scheduleCall (sql : String) (limit : Option Nat)
  | toastShown (t : Toast)
deriving DecidableEq

/-- The remote collaborators of the hook: posting the job, awaiting its
completion, and fetching the results stream.  Each may reject, modelled
with `Except String` (the message is the `ApiError`). -/
structure SqlRunnerEnv where
  scheduleSqlJob : String → Option Nat → Except String String
  getSqlRunnerCompleteJob : String → Except String SqlRunnerJob
  getResultsFromStream : Option String → Except String (List ResultRow)

/-- The body of the `useMutation` in `useSqlQueryRun`: schedule the job,
await completion; on `ERROR` status show a toast when the details are
error-shaped and resolve to `undefined`; otherwise fetch the results
stream from the file url and resolve to `{ results, columns }`.  A
rejection anywhere propagates as `Except.error`. -/
def runSqlQueryMutationFn (env : SqlRunnerEnv) (sql : String) (limit : Option Nat) :
    Except String (Option ResultsAndColumns) × List SqlEffect :=
  match env.scheduleSqlJob sql limit with
  | Except.error e => (Except.error e, [SqlEffect.scheduleCall sql limit])
  | Except.ok jobId =>
    match env.getSqlRunnerCompleteJob jobId with
    | Except.error e => (Except.error e, [SqlEffect.scheduleCall sql limit])
    | Except.ok job =>
      if job.status = SchedulerJobStatus.error then
        match job.details with
        | some (JobDetails.errorDetails msg) =>
          (Except.ok none,
           [SqlEffect.scheduleCall sql limit,
            SqlEffect.toastShown ⟨"Could not run SQL query", some msg⟩])
        | _ => (Except.ok none, [SqlEffect.scheduleCall sql limit])
      else
        let url : Option String :=
          match job.details with
          | some (JobDetails.completedDetails fileUrl _) => some fileUrl
          | _ => none
        match env.getResultsFromStream url with
        | Except.error e => (Except.error e, [SqlEffect.scheduleCall sql limit])
        | Except.ok results =>
          let columns : List SqlColumn :=
            match job.details with
            | some (JobDetails.completedDetails _ cols) => cols
            | _ => []
          (Except.ok (some ⟨results, columns⟩), [SqlEffect.scheduleCall sql limit])

/-- One settled mutation run including the `onError` option of the
`useMutation` call, which shows a "Could not fetch SQL query results"
toast on rejection.  No retry is configured, so the body runs once. -/
def runSqlQueryRun (env : SqlRunnerEnv) (sql : String) (limit : Option Nat) :
    Except String (Option ResultsAndColumns) × List SqlEffect :=
  match runSqlQueryMutationFn env sql limit with
  | (Except.error e, fx) =>
    (Except.error e,
     fx ++ [SqlEffect.toastShown ⟨"Could not fetch SQL query results", none⟩])
  | (Except.ok d, fx) => (Except.ok d, fx)

/-- The per-render state of the hook: the `data` `useState`, the
`previousDataRef` `useRef`, and the mutation's `isLoading` flag. -/
structure HookState where
  data : Option ResultsAndColumns
  previousDataRef : Option ResultsAndColumns
  isLoading : Bool
deriving DecidableEq

/-- Embeds `const currentData = isLoading ? previousDataRef.current : data`:
the `data` value the hook returns on a render. -/
def returnedData (s : HookState) : Option ResultsAndColumns :=
  if s.isLoading then s.previousDataRef else s.data

/-- Embeds `onMutate`: save the current data into `previousDataRef`; the
mutation is now in flight. -/
def onMutateStep (s : HookState) : HookState :=
  { s with previousDataRef := s.data, isLoading := true }

/-- Embeds `onSuccess(newData)`: `setData(newData)`; the mutation has settled. -/
def onSuccessStep (s : HookState) (newData : Option ResultsAndColumns) : HookState :=
  { s with data := newData, isLoading := false }

/-- Embeds `onError`: no state update besides the mutation settling (`setData`
is not called). -/
def onErrorStep (s : HookState) : HookState :=
  { s with isLoading := false }

/-! ## Frontend: the `CreateGroupModal` component -/

/-- Whitespace as recognised by JavaScript `String.prototype.trim`
(restricted to the ASCII characters that can appear in a group name
form; the exact set only needs to agree between `trim` and
"non-whitespace character"). -/
def isJsWhitespace (c : Char) : Bool :=
  c = ' ' || c = '\t' || c = '\n' || c = '\r' || c = '\x0b' || c = '\x0c'

/-- JavaScript `value.trim()` over the character list of the string:
drop whitespace from both ends. -/
def jsTrim (s : List Char) : List Char :=
  ((s.dropWhile isJsWhitespace).reverse.dropWhile isJsWhitespace).reverse

/-- The `name` validator of the Mantine form:
`value.trim().length ? null : 'Group name is required'`. -/
def validateGroupName (value : List Char) : Option String :=
  if (jsTrim value).length ≠ 0 then none else some "Group name is required"

/-- The `CreateGroup` DTO submitted by the form (its only field is the
group name, modelled as its character list). -/
structure CreateGroup where
  name : List Char
deriving DecidableEq

/-- Embeds `form.onSubmit(handleSubmit)`: Mantine runs the validators first and
calls the handler only when all pass, so the create-group mutation
receives the values exactly when validation accepts the name. -/
def submitCreateGroup (values : CreateGroup) : Option CreateGroup :=
  match validateGroupName values.name with
  | some _ => none
  | none => some values

/-- The ability of the frontend user, restricted to the single check the
modal performs: `cannot('manage', 'Group')`. -/
structure GroupAbility where
  canManageGroup : Bool
deriving DecidableEq

/-- The `user.data` value from `useApp` (its `ability` may be absent,
hence the optional chaining in the source). -/
structure FrontendUserData where
  ability : Option GroupAbility
deriving DecidableEq

/-- The `user` object from `useApp` (`data` is absent until loaded). -/
structure AppUser where
  data : Option FrontendUserData
deriving DecidableEq

/-- What the component returns: `none` models returning `null`, `some`
models the rendered modal with its `opened` prop. -/
inductive RenderedModal
  | modalView (opened : Bool)
deriving DecidableEq

/-- Embeds `user.data?.ability?.cannot('manage', 'Group')` with JavaScript
optional chaining: `undefined` (hence falsy) when `data` or `ability` is
absent. -/
def cannotManageGroup (user : AppUser) : Bool :=
  match user.data with
  | none => false
  | some d =>
    match d.ability with
    | none => false
    | some a => !a.canManageGroup

/-- The render function of `CreateGroupModal`: return `null` when the
ability check denies managing groups, otherwise render the modal with
the given `opened` prop. -/
def renderCreateGroupModal (user : AppUser) (opened : Bool) : Option RenderedModal :=
  if cannotManageGroup user then none
  else some (RenderedModal.modalView opened)

/-! ## Concrete instances used by witnesses and counterexamples -/

/-- A configuration with both dbt Cloud and Cube fully configured. -/
def cfgBothConfigured : LightdashConfig :=
  { dbtCloud := { bearerToken := some "dbt-token", environmentId := some "env-1" }
    cube := { token := some "cube-token", domain := some "cube.example.com" }
    siteUrl := "https://lightdash.example.com" }

/-- A configuration with only the Cube pair configured. -/
def cfgCubeOnly : LightdashConfig :=
  { dbtCloud := { bearerToken := none, environmentId := none }
    cube := { token := some "cube-token", domain := some "cube.example.com" }
    siteUrl := "https://lightdash.example.com" }

/-- A configuration with neither client pair configured. -/
def cfgNone : LightdashConfig :=
  { dbtCloud := { bearerToken := none, environmentId := some "env-1" }
    cube := { token := some "cube-token", domain := none }
    siteUrl := "https://lightdash.example.com" }

/-- An ability that denies every project view. -/
def denyAbility : Ability := { canViewProject := fun _ _ => false }

/-- An ability that allows every project view. -/
def allowAbility : Ability := { canViewProject := fun _ _ => true }

/-- A user whose ability denies viewing every project. -/
def denyUser : SessionUser := { userUuid := "user-deny", ability := denyAbility }

/-- A user whose ability allows viewing every project. -/
def allowUser : SessionUser := { userUuid := "user-allow", ability := allowAbility }

/-- A service environment with both clients configured and simple
concrete collaborator behaviour. -/
def sampleEnv : Env :=
  { lightdashConfig := cfgBothConfigured
    projectModel := fun _ => { organizationUuid := "org-1" }
    clientViews := fun _ => ["view-a"]
    clientFields := fun _ view _ => [view ++ ".field"]
    clientSql := fun _ query => "SELECT " ++ query
    schedulerJobId := fun payload => "job-for-" ++ payload.userUuid
    streamFileUrl := fun _ projectUuid _ => "file-" ++ projectUuid }

/-- The payload of a streaming job submitted for `denyUser`, who cannot
view any project. -/
def denyPayload : SemanticLayerQueryPayload :=
  { userUuid := "user-deny"
    projectUuid := "proj-1"
    query := "q1"
    context := "semanticViewer" }

/-- A sql-runner environment whose job completes with status `ERROR`
and error-shaped details. -/
def envJobErrorDetails : SqlRunnerEnv :=
  { scheduleSqlJob := fun _ _ => Except.ok "job-1"
    getSqlRunnerCompleteJob := fun _ =>
      Except.ok { status := SchedulerJobStatus.error
                  details := some (JobDetails.errorDetails "boom") }
    getResultsFromStream := fun _ => Except.ok [] }

/-- A sql-runner environment whose job completes with status `ERROR`
but `undefined` details. -/
def envJobErrorNoDetails : SqlRunnerEnv :=
  { scheduleSqlJob := fun _ _ => Except.ok "job-1"
    getSqlRunnerCompleteJob := fun _ =>
      Except.ok { status := SchedulerJobStatus.error, details := none }
    getResultsFromStream := fun _ => Except.ok [] }

/-- A sql-runner environment whose job scheduling request rejects. -/
def envScheduleRejects : SqlRunnerEnv :=
  { scheduleSqlJob := fun _ _ => Except.error "network down"
    getSqlRunnerCompleteJob := fun _ =>
      Except.ok { status := SchedulerJobStatus.completed, details := none }
    getResultsFromStream := fun _ => Except.ok [] }

/-- A frontend user whose loaded ability denies managing groups. -/
def deniedAppUser : AppUser :=
  { data := some { ability := some { canManageGroup := false } } }

/-- A settled hook state holding one previous successful result. -/
def sampleHookState : HookState :=
  { data := some { results := ["r1"], columns := ["c1"] }
    previousDataRef := none
    isLoading := false }

/-- Number of `scheduleSqlJob` network calls recorded in a trace. -/
def scheduleCallCount (fx : List SqlEffect) : Nat :=
  fx.countP fun e =>
    match e with
    | SqlEffect.scheduleCall _ _ => true
    | _ => false

/-- Number of toasts recorded in a trace. -/
def toastCount (fx : List SqlEffect) : Nat :=
  fx.countP fun e =>
    match e with
    | SqlEffect.toastShown _ => true
    | _ => false

/-! ## Theorems -/

/-- Helper: `jsTrim` returns the empty list exactly when every
character of the input is whitespace. -/
theorem jsTrim_eq_nil_iff (s : List Char) :
    jsTrim s = [] ↔ ∀ c ∈ s, isJsWhitespace c := by
  unfold jsTrim
  rw [List.reverse_eq_nil_iff, List.dropWhile_eq_nil_iff]
  simp only [List.mem_reverse]
  constructor
  · intro h c hc
    have hsplit := List.takeWhile_append_dropWhile (p := isJsWhitespace) (l := s)
    rw [← hsplit] at hc
    rcases List.mem_append.1 hc with htake | hdrop
    · exact List.mem_takeWhile_imp htake
    · exact h c hdrop
  · intro h c hc
    have hsplit := List.takeWhile_append_dropWhile (p := isJsWhitespace) (l := s)
    refine h c ?_
    rw [← hsplit]
    exact List.mem_append.2 (Or.inr hc)

/-- C2: whenever both dbt Cloud config values are truthy the dbt Cloud
client is selected (regardless of the Cube configuration), and the Cube
client is selected exactly when the dbt Cloud pair is incomplete and
both Cube values are truthy. -/
theorem getSemanticLayerClient_precedence (cfg : LightdashConfig) (p : String) :
    ((truthy cfg.dbtCloud.bearerToken && truthy cfg.dbtCloud.environmentId) = true →
      getSemanticLayerClient cfg p = Except.ok SemanticLayerClient.dbtCloudClient) ∧
    (getSemanticLayerClient cfg p = Except.ok SemanticLayerClient.cubeClient ↔
      ((truthy cfg.dbtCloud.bearerToken && truthy cfg.dbtCloud.environmentId) = false ∧
       (truthy cfg.cube.token && truthy cfg.cube.domain) = true)) := by
  unfold getSemanticLayerClient
  cases h1 : truthy cfg.dbtCloud.bearerToken && truthy cfg.dbtCloud.environmentId <;>
    cases h2 : truthy cfg.cube.token && truthy cfg.cube.domain <;>
      simp [h1, h2]

/-- C2 witness: with both pairs configured, the dbt Cloud client wins. -/
theorem getSemanticLayerClient_precedence_witness :
    getSemanticLayerClient cfgBothConfigured "proj-1" =
      Except.ok SemanticLayerClient.dbtCloudClient :=
  (getSemanticLayerClient_precedence cfgBothConfigured "proj-1").1 (by decide)

/-- C3: `getSemanticLayerClient` throws `MissingConfigError` exactly
when neither configuration pair is complete, and returns a client
whenever either pair is complete. -/
theorem getSemanticLayerClient_missing_config (cfg : LightdashConfig) (p : String) :
    (getSemanticLayerClient cfg p =
        Except.error (ServiceError.missingConfig "No semantic layer available") ↔
      ((truthy cfg.dbtCloud.bearerToken && truthy cfg.dbtCloud.environmentId) = false ∧
       (truthy cfg.cube.token && truthy cfg.cube.domain) = false)) ∧
    (((truthy cfg.dbtCloud.bearerToken && truthy cfg.dbtCloud.environmentId) = true ∨
      (truthy cfg.cube.token && truthy cfg.cube.domain) = true) →
      ∃ c, getSemanticLayerClient cfg p = Except.ok c) := by
  unfold getSemanticLayerClient
  cases h1 : truthy cfg.dbtCloud.bearerToken && truthy cfg.dbtCloud.environmentId <;>
    cases h2 : truthy cfg.cube.token && truthy cfg.cube.domain <;>
      simp [h1, h2]

/-- C3 witness: with neither pair complete, the missing-config error is
raised, and a complete Cube pair yields a client. -/
theorem getSemanticLayerClient_missing_config_witness :
    getSemanticLayerClient cfgNone "proj-1" =
      Except.error (ServiceError.missingConfig "No semantic layer available") :=
  (getSemanticLayerClient_missing_config cfgNone "proj-1").1.2 (by decide)

/-- C8: client selection is independent of the `projectUuid` argument:
under one configuration, any two project uuids select identically. -/
theorem getSemanticLayerClient_ignores_project (cfg : LightdashConfig)
    (p₁ p₂ : String) :
    getSemanticLayerClient cfg p₁ = getSemanticLayerClient cfg p₂ := rfl

/-- C1 counterexample: `streamQueryIntoFile` performs no permission
check.  With a fully configured service whose ability denies every view,
the payload of `denyUser` still reaches the client: the call succeeds,
a client `streamResults` call is recorded, and no `ForbiddenError` is
thrown, even though the user cannot view the project. -/
theorem streamQueryIntoFile_skips_permission_check :
    denyUser.ability.canViewProject
        (sampleEnv.projectModel denyPayload.projectUuid).organizationUuid
        denyPayload.projectUuid = false ∧
    streamQueryIntoFile sampleEnv denyPayload =
      (Except.ok "file-proj-1",
       [Effect.clientStreamResults SemanticLayerClient.dbtCloudClient "proj-1" "q1"]) := by
  constructor
  · rfl
  · rfl

/-- C1 amended: the four entry points that receive a `SessionUser`
(`getViews`, `getFields`, `getStreamingResults`, `getSql`) first resolve
the owning project and verify the caller's viewing permission, throwing
`ForbiddenError` with no client or scheduler call when it fails;
`streamQueryIntoFile` is excluded, as it receives only a scheduler
payload and performs no permission check. -/
theorem session_entry_points_forbidden (env : Env) (user : SessionUser)
    (projectUuid view : String) (selectedFields : SemanticLayerSelectedFields)
    (query : SemanticLayerQuery)
    (hdeny : user.ability.canViewProject
        (env.projectModel projectUuid).organizationUuid projectUuid = false) :
    getViews env user projectUuid = (Except.error ServiceError.forbidden, []) ∧
    getFields env user projectUuid view selectedFields =
      (Except.error ServiceError.forbidden, []) ∧
    getStreamingResults env user projectUuid query =
      (Except.error ServiceError.forbidden, []) ∧
    getSql env user projectUuid query = (Except.error ServiceError.forbidden, []) := by
  unfold getViews getFields getStreamingResults getSql checkCanViewProject
  simp [hdeny]

/-- C1 amended witness: the denying user is rejected by `getViews` with
an empty effect trace. -/
theorem session_entry_points_forbidden_witness :
    getViews sampleEnv denyUser "proj-1" = (Except.error ServiceError.forbidden, []) :=
  (session_entry_points_forbidden sampleEnv denyUser "proj-1" "view-a" [] "q1" rfl).1

/-- C4: for a user whose permission check fails, `getViews`,
`getFields`, `getSql` and `getStreamingResults` record no effect at all
— in particular no client call and no scheduler submission — and none
of them produces a successful result. -/
theorem forbidden_user_no_external_call (env : Env) (user : SessionUser)
    (projectUuid view : String) (selectedFields : SemanticLayerSelectedFields)
    (query : SemanticLayerQuery)
    (hdeny : user.ability.canViewProject
        (env.projectModel projectUuid).organizationUuid projectUuid = false) :
    (getViews env user projectUuid).2 = [] ∧
    (getFields env user projectUuid view selectedFields).2 = [] ∧
    (getStreamingResults env user projectUuid query).2 = [] ∧
    (getSql env user projectUuid query).2 = [] ∧
    (getViews env user projectUuid).1.isOk = false ∧
    (getFields env user projectUuid view selectedFields).1.isOk = false ∧
    (getStreamingResults env user projectUuid query).1.isOk = false ∧
    (getSql env user projectUuid query).1.isOk = false := by
  unfold getViews getFields getStreamingResults getSql checkCanViewProject
  simp [hdeny, Except.isOk, Except.toBool]

/-- C4 witness: for the denying user, `getStreamingResults` schedules no
job and returns no success. -/
theorem forbidden_user_no_external_call_witness :
    (getStreamingResults sampleEnv denyUser "proj-2" "q2").2 = [] ∧
    (getStreamingResults sampleEnv denyUser "proj-2" "q2").1.isOk = false :=
  ⟨(forbidden_user_no_external_call sampleEnv denyUser "proj-2" "v" [] "q2" rfl).2.2.1,
   (forbidden_user_no_external_call sampleEnv denyUser "proj-2" "v" [] "q2" rfl).2.2.2.2.2.2.1⟩

/-- C5: when the caller may view the project and a client is selected,
`getSql` returns exactly the selected client's `getSql(query)` and
`getFields` returns exactly the selected client's
`getFields(view, selectedFields)`, each after exactly that one
forwarded client call. -/
theorem getSql_getFields_forward_verbatim (env : Env) (user : SessionUser)
    (projectUuid view : String) (selectedFields : SemanticLayerSelectedFields)
    (query : SemanticLayerQuery) (c : SemanticLayerClient)
    (hview : user.ability.canViewProject
        (env.projectModel projectUuid).organizationUuid projectUuid = true)
    (hclient : getSemanticLayerClient env.lightdashConfig projectUuid = Except.ok c) :
    getSql env user projectUuid query =
      (Except.ok (env.clientSql c query), [Effect.clientGetSql c query]) ∧
    getFields env user projectUuid view selectedFields =
      (Except.ok (env.clientFields c view selectedFields),
       [Effect.clientGetFields c view selectedFields]) := by
  unfold getSql getFields checkCanViewProject
  simp [hview, hclient]

/-- C5 witness: the allowing user gets the dbt Cloud client's SQL for a
concrete query, verbatim. -/
theorem getSql_getFields_forward_verbatim_witness :
    getSql sampleEnv allowUser "proj-1" "q1" =
      (Except.ok "SELECT q1",
       [Effect.clientGetSql SemanticLayerClient.dbtCloudClient "q1"]) :=
  (getSql_getFields_forward_verbatim sampleEnv allowUser "proj-1" "v" [] "q1"
    SemanticLayerClient.dbtCloudClient rfl rfl).1

/-- C6 counterexample: a completed job with status `ERROR` but
`undefined` details shows no toast at all — the source only toasts when
`isErrorDetails(job.details)` holds — although the mutation still
resolves to `undefined`. -/
theorem sqlQueryRun_error_job_without_toast :
    runSqlQueryRun envJobErrorNoDetails "SELECT 1" none =
      (Except.ok none, [SqlEffect.scheduleCall "SELECT 1" none]) ∧
    toastCount (runSqlQueryRun envJobErrorNoDetails "SELECT 1" none).2 = 0 := by
  exact ⟨rfl, rfl⟩

/-- C6 amended: for a completed job with status `ERROR`, the mutation
resolves to `undefined` after exactly one scheduling call (no retry),
and an error toast is shown exactly when the job's details are
error-shaped; independently, every mutation rejection triggers the
fetch-error toast. -/
theorem sqlQueryRun_error_toasts (env : SqlRunnerEnv) (sql : String)
    (limit : Option Nat) (jobId : String) (job : SqlRunnerJob)
    (hsched : env.scheduleSqlJob sql limit = Except.ok jobId)
    (hjob : env.getSqlRunnerCompleteJob jobId = Except.ok job)
    (herr : job.status = SchedulerJobStatus.error) :
    (runSqlQueryRun env sql limit).1 = Except.ok none ∧
    scheduleCallCount (runSqlQueryRun env sql limit).2 = 1 ∧
    toastCount (runSqlQueryRun env sql limit).2 =
      (if isErrorDetails job.details then 1 else 0) ∧
    (∀ env2 sql2 limit2 e,
      (runSqlQueryMutationFn env2 sql2 limit2).1 = Except.error e →
      SqlEffect.toastShown ⟨"Could not fetch SQL query results", none⟩ ∈
        (runSqlQueryRun env2 sql2 limit2).2) := by
  have hbody :
      runSqlQueryMutationFn env sql limit =
        (Except.ok none,
         SqlEffect.scheduleCall sql limit ::
           (if isErrorDetails job.details then
             [SqlEffect.toastShown ⟨"Could not run SQL query",
               match job.details with
               | some (JobDetails.errorDetails msg) => some msg
               | _ => none⟩]
            else [])) := by
    unfold runSqlQueryMutationFn
    rw [hsched]
    dsimp only
    rw [hjob]
    dsimp only
    rcases hd : job.details with _ | det
    · simp [herr, hd, isErrorDetails]
    · cases det with
      | errorDetails msg => simp [herr, hd, isErrorDetails]
      | completedDetails fileUrl cols => simp [herr, hd, isErrorDetails]
  have hrun : runSqlQueryRun env sql limit = runSqlQueryMutationFn env sql limit := by
    unfold runSqlQueryRun
    rw [hbody]
  refine ⟨?_, ?_, ?_, ?_⟩
  · rw [hrun, hbody]
  · rw [hrun, hbody]
    rcases hd : isErrorDetails job.details with _ | _ <;>
      simp [hd, scheduleCallCount, List.countP, List.countP.go]
  · rw [hrun, hbody]
    rcases hd : isErrorDetails job.details with _ | _ <;>
      simp [hd, toastCount, List.countP, List.countP.go]
  · intro env2 sql2 limit2 e h
    unfold runSqlQueryRun
    rcases hm : runSqlQueryMutationFn env2 sql2 limit2 with ⟨r, fx⟩
    rw [hm] at h
    cases r with
    | error e2 => simp [List.mem_append]
    | ok d => simp at h

/-- C6 amended witness: error-shaped details of an `ERROR` job produce
the run-error toast and an `undefined` resolution. -/
theorem sqlQueryRun_error_toasts_witness :
    (runSqlQueryRun envJobErrorDetails "SELECT 2" (some 10)).1 = Except.ok none ∧
    toastCount (runSqlQueryRun envJobErrorDetails "SELECT 2" (some 10)).2 = 1 := by
  have h := sqlQueryRun_error_toasts envJobErrorDetails "SELECT 2" (some 10) "job-1"
    { status := SchedulerJobStatus.error
      details := some (JobDetails.errorDetails "boom") } rfl rfl rfl
  exact ⟨h.1, by rw [h.2.2.1]; rfl⟩

/-- C7: the group-name validator accepts a name exactly when its trim is
non-empty, equivalently exactly when it contains a non-whitespace
character; a whitespace-only (or empty) name fails with the message
"Group name is required" and the create-group mutation is not called. -/
theorem createGroupModal_name_validation (name : List Char) :
    (validateGroupName name = none ↔ jsTrim name ≠ []) ∧
    (jsTrim name ≠ [] ↔ ∃ c ∈ name, ¬ isJsWhitespace c) ∧
    ((∀ c ∈ name, isJsWhitespace c) →
      validateGroupName name = some "Group name is required" ∧
      submitCreateGroup ⟨name⟩ = none) := by
  refine ⟨?_, ?_, ?_⟩
  · unfold validateGroupName
    rcases h : jsTrim name with _ | ⟨c, cs⟩ <;> simp [h]
  · rw [Ne, jsTrim_eq_nil_iff]
    push_neg
    simp
  · intro h
    have hnil : jsTrim name = [] := (jsTrim_eq_nil_iff name).2 h
    have hval : validateGroupName name = some "Group name is required" := by
      unfold validateGroupName
      simp [hnil]
    exact ⟨hval, by unfold submitCreateGroup; simp [hval]⟩

/-- C7 witness: the whitespace-only name " \t" fails validation with the
required message and never reaches the mutation. -/
theorem createGroupModal_name_validation_witness :
    validateGroupName [' ', '\t'] = some "Group name is required" ∧
    submitCreateGroup ⟨[' ', '\t']⟩ = none :=
  (createGroupModal_name_validation [' ', '\t']).2.2 (by decide)

/-- C9: a user whose loaded ability lacks the manage-Group permission is
rendered nothing by `CreateGroupModal`, whatever the `opened` prop. -/
theorem createGroupModal_denied_renders_nothing (user : AppUser) (opened : Bool)
    (d : FrontendUserData) (a : GroupAbility)
    (hdata : user.data = some d) (hab : d.ability = some a)
    (hcannot : a.canManageGroup = false) :
    renderCreateGroupModal user opened = none := by
  unfold renderCreateGroupModal cannotManageGroup
  rw [hdata]
  dsimp only
  rw [hab]
  dsimp only
  rw [hcannot]
  simp

/-- C9 witness: the concrete denied user is rendered nothing with the
modal opened. -/
theorem createGroupModal_denied_renders_nothing_witness :
    renderCreateGroupModal deniedAppUser true = none :=
  createGroupModal_denied_renders_nothing deniedAppUser true
    { ability := some { canManageGroup := false } } { canManageGroup := false }
    rfl rfl rfl

/-- C10: while a mutation is in flight the hook returns the data saved
at mutation start (equal to the previous settled data); once it settles
the hook returns the latest result — the success value on `onSuccess`,
the unchanged previous data on `onError` — and a job that completes
with status `ERROR` resolves the mutation to `undefined`. -/
theorem useSqlQueryRun_keeps_previous_data (s : HookState)
    (newData : Option ResultsAndColumns)
    (hsettled : s.isLoading = false) :
    returnedData (onMutateStep s) = s.data ∧
    returnedData (onMutateStep s) = returnedData s ∧
    returnedData (onSuccessStep (onMutateStep s) newData) = newData ∧
    returnedData (onErrorStep (onMutateStep s)) = s.data ∧
    (∀ env sql limit jobId job,
      env.scheduleSqlJob sql limit = Except.ok jobId →
      env.getSqlRunnerCompleteJob jobId = Except.ok job →
      job.status = SchedulerJobStatus.error →
      (runSqlQueryMutationFn env sql limit).1 = Except.ok none) := by
  refine ⟨rfl, ?_, rfl, rfl, ?_⟩
  · simp [returnedData, onMutateStep, hsettled]
  · intro env sql limit jobId job hs hj he
    unfold runSqlQueryMutationFn
    rw [hs]
    dsimp only
    rw [hj]
    dsimp only
    rcases hd : job.details with _ | det
    · simp [he, hd]
    · cases det with
      | errorDetails msg => simp [he, hd]
      | completedDetails fileUrl cols => simp [he, hd]

/-- C10 witness: in flight, the concrete settled state keeps returning
its previous successful result. -/
theorem useSqlQueryRun_keeps_previous_data_witness :
    returnedData (onMutateStep sampleHookState) = sampleHookState.data :=
  (useSqlQueryRun_keeps_previous_data sampleHookState none rfl).1

end Lightdash
